import Mathlib

/-!
Verification of the ERC-4337 asset-recovery repository's UserOperation
pipeline: a shallow embedding of the hex/numeric canonicalizer
(`serializeUserOp.formatHex` in client/src/lib/web3.ts), the signing engine
(`signUserOp`, `signMessage`), the initCode generator
(`generateInitCode` in client/src/lib/smartWallet.ts), the deployment
tracking and verification helpers (client/src/lib/deployment.ts), and the
server relay route and Alchemy bundler provider (server/routes.ts,
server/bundler/providers/alchemy.ts).

JavaScript strings are modelled as Lean `String` (all data involved is
ASCII), byte strings as `List Nat` (each entry < 256 where produced from
hex), JS bigint as `Nat` (all values in scope are non-negative), and the
external Keccak-256 and ECDSA primitives of the viem library as function
parameters, since only the byte strings fed to them matter to the claims.
-/

/-- One character is a decimal digit, as JS regex `\d` classifies it. -/
def isDecDigitB (c : Char) : Bool := '0' ≤ c && c ≤ '9'

/-- One character is a hexadecimal digit, as regex `[0-9a-fA-F]`. -/
def isHexDigitB (c : Char) : Bool :=
  ('0' ≤ c && c ≤ '9') || ('a' ≤ c && c ≤ 'f') || ('A' ≤ c && c ≤ 'F')

/-- Value of a hex digit, as viem's charCodeToBase16 (0 for non-digits,
which never arises after validation). -/
def hexVal (c : Char) : Nat :=
  if '0' ≤ c && c ≤ '9' then c.toNat - 48
  else if 'a' ≤ c && c ≤ 'f' then c.toNat - 87
  else if 'A' ≤ c && c ≤ 'F' then c.toNat - 55
  else 0

/-- JS `s.startsWith('0x')`. -/
def jsStartsWith0x (s : String) : Bool :=
  match s.data with
  | '0' :: 'x' :: _ => true
  | _ => false

/-- Lowercase hexadecimal digit characters, as JS `toString(16)` uses. -/
def hexDigitChar : Nat → Char
  | 0 => '0' | 1 => '1' | 2 => '2' | 3 => '3' | 4 => '4'
  | 5 => '5' | 6 => '6' | 7 => '7' | 8 => '8' | 9 => '9'
  | 10 => 'a' | 11 => 'b' | 12 => 'c' | 13 => 'd' | 14 => 'e' | _ => 'f'

/-- Hex digits of a positive number, most significant first; fuel is the
number itself, which bounds the digit count. -/
def natToHexCore : Nat → Nat → List Char
  | 0, _ => []
  | fuel + 1, n => if n = 0 then [] else natToHexCore fuel (n / 16) ++ [hexDigitChar (n % 16)]

/-- JS `n.toString(16)` for a non-negative bigint: lowercase hex digits,
no 0x mark, `"0"` for zero. -/
def natToHex (n : Nat) : String :=
  if n = 0 then "0" else String.mk (natToHexCore n n)

/-- JS `BigInt(s)` for a string of decimal digits. -/
def decToNat (s : String) : Nat :=
  s.data.foldl (fun a c => 10 * a + (c.toNat - 48)) 0

/-- The runtime shapes the canonicalizer `formatHex` inside
`serializeUserOp` (web3.ts) inspects with typeof: bigint, number, string,
and null/undefined. -/
inductive JSValue where
  | vBigInt : Nat → JSValue
  | vNumber : Nat → JSValue
  | vStr : String → JSValue
  | vNull : JSValue
deriving DecidableEq

/-- The hex/numeric canonicalizer: `formatHex` inside `serializeUserOp`
(web3.ts lines 84-109). Null/undefined give "0x"; bigint and number are
written in hex; a string already starting with 0x passes through
unchanged; an all-decimal string is reinterpreted as decimal and written
in hex; any other string merely receives a 0x mark in front. -/
def formatHex : JSValue → String
  | JSValue.vNull => "0x"
  | JSValue.vBigInt n => "0x" ++ natToHex n
  | JSValue.vNumber n => "0x" ++ natToHex n
  | JSValue.vStr s =>
      if jsStartsWith0x s then s
      else if !s.data.isEmpty && s.data.all isDecDigitB then "0x" ++ natToHex (decToNat s)
      else "0x" ++ s

/-- viem `isHex` (strict): the string matches `^0x[0-9a-fA-F]*$`. -/
def isHexStrict (s : String) : Bool :=
  jsStartsWith0x s && (s.data.drop 2).all isHexDigitB

/-- Pairs of hex digits to bytes, most significant first, as viem's
hexToBytes reads them once the digit count is even. -/
def hexPairs : List Char → List Nat
  | c1 :: c2 :: rest => (16 * hexVal c1 + hexVal c2) :: hexPairs rest
  | [c] => [hexVal c]
  | [] => []

/-- viem `hexToBytes`: strip the 0x mark, put a leading 0 in front of an
odd digit count, then read digit pairs as bytes. -/
def hexToBytes (s : String) : List Nat :=
  let ds := s.data.drop 2
  hexPairs (if ds.length % 2 = 1 then '0' :: ds else ds)

/-- UTF-8 encoding of one code point. -/
def utf8Char (n : Nat) : List Nat :=
  if n < 128 then [n]
  else if n < 2048 then [192 + n / 64, 128 + n % 64]
  else if n < 65536 then [224 + n / 4096, 128 + n / 64 % 64, 128 + n % 64]
  else [240 + n / 262144, 128 + n / 4096 % 64, 128 + n / 64 % 64, 128 + n % 64]

/-- viem `stringToBytes`: the UTF-8 bytes of the string. -/
def utf8Bytes (s : String) : List Nat :=
  s.data.flatMap (fun c => utf8Char c.toNat)

/-- viem `toBytes` on a string: hex decoding when the string is strict
0x-hex, UTF-8 encoding otherwise. -/
def toBytes (s : String) : List Nat :=
  if isHexStrict s then hexToBytes s else utf8Bytes s

/-- Two lowercase hex digit characters of one byte. -/
def byteHexChars (n : Nat) : List Char :=
  [hexDigitChar (n / 16 % 16), hexDigitChar (n % 16)]

/-- viem `bytesToHex`: 0x followed by two lowercase digits per byte, as
`keccak256` renders its digest. -/
def bytesToHex (b : List Nat) : String :=
  String.mk ('0' :: 'x' :: b.flatMap byteHexChars)

/-- JS `s.slice(2)`. -/
def jsSliceTwo (s : String) : String :=
  String.mk (s.data.drop 2)

/-- The two input shapes of the local `formatHex` inside `signUserOp`
(web3.ts lines 135-138): bigint or string. -/
inductive BigIntOrString where
  | big : Nat → BigIntOrString
  | str : String → BigIntOrString
deriving DecidableEq

/-- The local `formatHex` of `signUserOp`: hex digits of a bigint, the
string itself otherwise, with a 0x mark put in front when missing. It
does NOT reinterpret decimal strings. -/
def formatHexSign (v : BigIntOrString) : String :=
  let hex := match v with
    | BigIntOrString.big n => natToHex n
    | BigIntOrString.str s => s
  if jsStartsWith0x hex then hex else "0x" ++ hex

/-- The ten fields of a UserOperation that `signUserOp` packs, in
declaration order; the client builds them as bigints or strings. -/
structure UserOp where
  sender : BigIntOrString
  nonce : BigIntOrString
  initCode : BigIntOrString
  callData : BigIntOrString
  callGasLimit : BigIntOrString
  verificationGasLimit : BigIntOrString
  preVerificationGas : BigIntOrString
  maxFeePerGas : BigIntOrString
  maxPriorityFeePerGas : BigIntOrString
  paymasterAndData : BigIntOrString
deriving DecidableEq

/-- The ten packed fields in the order `signUserOp` lists them. -/
def opFieldList (op : UserOp) : List BigIntOrString :=
  [op.sender, op.nonce, op.initCode, op.callData, op.callGasLimit,
   op.verificationGasLimit, op.preVerificationGas, op.maxFeePerGas,
   op.maxPriorityFeePerGas, op.paymasterAndData]

/-- `packed` of `signUserOp` (web3.ts lines 141-152): viem `concat` of
`toBytes(formatHex(field))` over the ten fields in order. -/
def packUserOp (op : UserOp) : List Nat :=
  List.flatten ((opFieldList op).map (fun f => toBytes (formatHexSign f)))

/-- `message` of `signUserOp` (web3.ts lines 155-159): entry point bytes,
then chain id bytes, then the packed fields. -/
def signUserOpMessage (op : UserOp) (chainId : Nat) (entryPoint : String) : List Nat :=
  List.flatten [toBytes entryPoint, toBytes (formatHexSign (BigIntOrString.big chainId)), packUserOp op]

/-- `userOpHash` digest bytes: Keccak-256 of the message; the hash itself
is a parameter, only the bytes fed to it are modelled. -/
def userOpDigestBytes (keccak : List Nat → List Nat) (op : UserOp) (chainId : Nat)
    (entryPoint : String) : List Nat :=
  keccak (signUserOpMessage op chainId entryPoint)

/-- The hex rendering of the digest as `keccak256` returns it. -/
def userOpHashHex (keccak : List Nat → List Nat) (op : UserOp) (chainId : Nat)
    (entryPoint : String) : String :=
  bytesToHex (userOpDigestBytes keccak op chainId entryPoint)

/-- The byte string viem's `hashMessage` hashes for a plain-text message:
the EIP-191 personal-message envelope, `\x19Ethereum Signed Message:\n`
then the byte count then the UTF-8 message bytes. -/
def hashMessagePreimage (message : String) : List Nat :=
  utf8Bytes ("\x19Ethereum Signed Message:\n" ++ toString (utf8Bytes message).length)
    ++ utf8Bytes message

/-- viem `hashMessage` on a plain string. -/
def hashMessageBytes (keccak : List Nat → List Nat) (message : String) : List Nat :=
  keccak (hashMessagePreimage message)

/-- `signMessage` (smartWallet.ts lines 183-193): viem's personal-message
signing of a plain string with a local account; the ECDSA primitive is a
parameter of key and payload. -/
def signMessage (keccak : List Nat → List Nat) (ecdsa : Nat → List Nat → List Nat)
    (message : String) (key : Nat) : List Nat :=
  ecdsa key (hashMessageBytes keccak message)

/-- `signUserOp` (web3.ts lines 132-166): build the message, hash it, and
hand the digest's hex rendering WITHOUT its 0x mark to `signMessage` as a
plain text message. -/
def signUserOp (keccak : List Nat → List Nat) (ecdsa : Nat → List Nat → List Nat)
    (op : UserOp) (chainId : Nat) (entryPoint : String) (key : Nat) : List Nat :=
  signMessage keccak ecdsa (jsSliceTwo (userOpHashHex keccak op chainId entryPoint)) key

/-- JS `s.toLowerCase()` over ASCII. -/
def toLowerStr (s : String) : String :=
  String.mk (s.data.map Char.toLower)

/-- The factory address every supported chain maps to in the client's
SIMPLE_ACCOUNT_FACTORY table (smartWallet.ts lines 7-15). -/
def factoryAddressConst : String := "0x9406Cc6185a346906296840746125a0E44976454"

/-- The client's SIMPLE_ACCOUNT_FACTORY lookup: the seven supported chain
ids map to the one factory address, anything else is absent. -/
def SIMPLE_ACCOUNT_FACTORY (chainId : Nat) : Option String :=
  if chainId = 1 || chainId = 137 || chainId = 42161 || chainId = 10
      || chainId = 8453 || chainId = 43114 || chainId = 56
  then some factoryAddressConst else none

/-- 64-character left-zero-padded hex word of ABI encoding. -/
def padWord64 (l : List Char) : List Char :=
  List.replicate (64 - l.length) '0' ++ l

/-- The hex digits of a string once a leading 0x mark is removed. -/
def stripHexMark (s : String) : List Char :=
  match s.data with
  | '0' :: 'x' :: rest => rest
  | l => l

/-- viem `encodeFunctionData` for `createAccount(address owner, uint256
salt)`: the 4-byte selector then the two ABI-padded words. -/
def encodeCreateAccount (owner : String) (salt : Nat) : String :=
  String.mk ('0' :: 'x' :: ("5fbfb9cf".data
    ++ padWord64 (stripHexMark (toLowerStr owner)) ++ padWord64 (natToHex salt).data))

/-- `generateInitCode` (smartWallet.ts lines 74-103): look the factory up
(error when the chain is unknown), lowercase it and make sure of its 0x
mark, then append the encoded createAccount call without its 0x mark. -/
def generateInitCode (owner : String) (chainId : Nat) : Except String String :=
  match SIMPLE_ACCOUNT_FACTORY chainId with
  | none => Except.error "No factory address for chain ID"
  | some factory =>
      let low := toLowerStr factory
      let formatted := if jsStartsWith0x low then low else "0x" ++ low
      Except.ok (formatted ++ jsSliceTwo (encodeCreateAccount owner 0))

/-- The Assembler's initCode choice (web3.ts line 262): the empty "0x" for
a deployed wallet, `generateInitCode` otherwise. -/
def assembleInitCode (isDeployed : Bool) (owner : String) (chainId : Nat) :
    Except String String :=
  if isDeployed then Except.ok "0x" else generateInitCode owner chainId

/-- The chain ids of SUPPORTED_NETWORKS (web3.ts lines 12-20): mainnet,
polygon, arbitrum, optimism, base, avalanche, bsc. -/
def SUPPORTED_CHAIN_IDS : List Nat := [1, 137, 42161, 10, 8453, 43114, 56]

/-- `verifyDeployment` (deployment.ts lines 25-44): a missing network or a
failed bytecode read is caught and reported as false; otherwise the
address counts as deployed when the bytecode is neither undefined nor
"0x". The address takes no part in the decision; the rpc outcome is the
`getBytecode` result (none for undefined). -/
def verifyDeployment (address : String) (chainId : Nat)
    (rpc : Except String (Option String)) : Bool :=
  if chainId ∈ SUPPORTED_CHAIN_IDS then
    match rpc with
    | Except.error _ => false
    | Except.ok code => code ≠ none && code ≠ some "0x"
  else false

/-- A JS promise that has settled: awaiting it again always repeats the
same outcome. `trackDeployment` receives one such already-created value. -/
inductive JSPromise (α : Type) where
  | resolved : α → JSPromise α
  | rejected : String → JSPromise α
deriving DecidableEq

/-- What one `trackDeployment` run did: its outcome (`ok none` when the
while loop falls through), the deployment store's final status, how many
times the one promise was awaited, and the backoff delays slept. -/
structure TrackResult (α : Type) where
  outcome : Except String (Option α)
  finalStatus : String
  awaits : Nat
  delays : List Nat

/-- The while loop of `trackDeployment` (deployment.ts lines 97-119):
each iteration awaits the SAME settled promise; a rejection increments
the attempt counter, throws the error at the last attempt and sleeps
`retryDelay` otherwise. Fuel is the remaining iteration budget. -/
def trackDeploymentGo (p : JSPromise α) (maxRetries retryDelay : Nat) :
    Nat → Nat → Nat → List Nat → TrackResult α
  | 0, _, awaits, delays => ⟨Except.ok none, "deploying", awaits, delays⟩
  | fuel + 1, attempts, awaits, delays =>
      match p with
      | JSPromise.resolved a => ⟨Except.ok (some a), "deployed", awaits + 1, delays⟩
      | JSPromise.rejected e =>
          if attempts + 1 = maxRetries then ⟨Except.error e, "failed", awaits + 1, delays⟩
          else trackDeploymentGo p maxRetries retryDelay fuel (attempts + 1) (awaits + 1)
            (delays ++ [retryDelay])

/-- `trackDeployment` (deployment.ts lines 89-120) with its defaults
maxRetries = 3, retryDelay = 5000 passed explicitly. -/
def trackDeployment (p : JSPromise α) (maxRetries retryDelay : Nat) : TrackResult α :=
  trackDeploymentGo p maxRetries retryDelay maxRetries 0 0 []

/-- The confirmation while loop of `deploySmartWallet` (smartWallet.ts
lines 163-173): up to 10 `verifyDeployment` checks; each failed check
sleeps 2000 ms; exhaustion throws. The oracle gives each attempt's check
outcome; the result carries the sleeps performed. -/
def awaitDeploymentLoop (oracle : Nat → Bool) :
    Nat → Nat → Except String Nat × List Nat
  | _, 0 => (Except.error "Deployment verification timeout", [])
  | attempts, fuel + 1 =>
      if oracle attempts then (Except.ok attempts, [])
      else
        let r := awaitDeploymentLoop oracle (attempts + 1) fuel
        (r.1, 2000 :: r.2)

/-- The confirmation loop started at attempt 0 with maxAttempts = 10. -/
def awaitDeployment (oracle : Nat → Bool) : Except String Nat × List Nat :=
  awaitDeploymentLoop oracle 0 10

/-- What `verifyUserOperation` (web3.ts lines 343-385) returned and did:
its success flag and error text, the grace sleeps performed, and how many
receipt lookups it made. -/
structure VerifyOutcome where
  success : Bool
  errorMsg : Option String
  graceWaits : List Nat
  receiptChecks : Nat
deriving DecidableEq

/-- `verifyUserOperation`: reject a handle without a hash outright; sleep
5000 ms; reject an unsupported chain; then look the receipt up ONCE — the
oracle gives the receipt found at each lookup index (none when there is
none), and the code only ever consults index 0. Success exactly when that
one receipt's status says success. -/
def verifyUserOperation (txHash : Option String) (chainId : Nat)
    (receiptAt : Nat → Option Bool) : VerifyOutcome :=
  match txHash with
  | none => ⟨false, some "Invalid transaction response", [], 0⟩
  | some _ =>
      if chainId ∈ SUPPORTED_CHAIN_IDS then
        match receiptAt 0 with
        | none => ⟨false, some "Transaction receipt not found", [5000], 1⟩
        | some true => ⟨true, none, [5000], 1⟩
        | some false => ⟨false, some "Transaction failed on-chain", [5000], 1⟩
      else ⟨false, some "Unsupported chain ID", [5000], 0⟩

/-- Modelled from the spec: the Submitted-to-Confirmed polling of section
4.6 as the claim states it — after the grace period, poll the receipt with
a budget of 10 attempts; confirmed when some attempt in the budget finds a
receipt whose status is success. Kept only to compare the claim's polling
discipline with the code's `verifyUserOperation`. -/
def specPollLoop (receiptAt : Nat → Option Bool) : Nat → Nat → Bool
  | _, 0 => false
  | attempt, fuel + 1 =>
      match receiptAt attempt with
      | some true => true
      | _ => specPollLoop receiptAt (attempt + 1) fuel

/-- Modelled from the spec: the full 10-attempt receipt-polling budget. -/
def specConfirmed (receiptAt : Nat → Option Bool) : Bool :=
  specPollLoop receiptAt 0 10

/-- The server-side UserOperation as the Alchemy provider receives it:
each field may be absent at runtime. -/
structure ServerUserOp where
  sender : Option String
  nonce : Option String
  initCode : Option String
  callData : Option String
  callGasLimit : Option String
  verificationGasLimit : Option String
  preVerificationGas : Option String
  maxFeePerGas : Option String
  maxPriorityFeePerGas : Option String
  paymasterAndData : Option String
  signature : Option String
deriving DecidableEq

/-- The sender test of `validateUserOperation` (alchemy.ts line 20):
`^0x[0-9a-fA-F]{40}$`; an absent sender fails the match. -/
def isValidSender : Option String → Bool
  | none => false
  | some s =>
      match s.data with
      | '0' :: 'x' :: rest => rest.length = 40 && rest.all isHexDigitB
      | _ => false

/-- `isValidHex` of `validateUserOperation` (alchemy.ts lines 25-28):
absent and empty values pass; anything else must match
`^0x([0-9a-fA-F]*)?$`. -/
def isValidHexField : Option String → Bool
  | none => true
  | some s => if s = "" then true else isHexStrict s

/-- The field list `validateUserOperation` walks, in its object order
(alchemy.ts lines 31-42). -/
def hexFieldEntries (op : ServerUserOp) : List (String × Option String) :=
  [("nonce", op.nonce), ("callGasLimit", op.callGasLimit),
   ("verificationGasLimit", op.verificationGasLimit),
   ("preVerificationGas", op.preVerificationGas),
   ("maxFeePerGas", op.maxFeePerGas),
   ("maxPriorityFeePerGas", op.maxPriorityFeePerGas),
   ("initCode", op.initCode), ("callData", op.callData),
   ("paymasterAndData", op.paymasterAndData), ("signature", op.signature)]

/-- The for loop of `validateUserOperation`: the first badly formed field
throws. -/
def checkHexFields : List (String × Option String) → Except String Unit
  | [] => Except.ok ()
  | (name, v) :: rest =>
      if isValidHexField v then checkHexFields rest
      else Except.error ("Invalid " ++ name ++ " format")

/-- `validateUserOperation` (alchemy.ts lines 18-49). -/
def validateUserOperation (op : ServerUserOp) : Except String Unit :=
  if isValidSender op.sender then checkHexFields (hexFieldEntries op)
  else Except.error "Invalid sender address format"

/-- `getChainPrefix` (alchemy.ts lines 135-150). -/
def getChainPrefix : Nat → Except String String
  | 1 => Except.ok "eth-mainnet"
  | 137 => Except.ok "polygon-mainnet"
  | 42161 => Except.ok "arb-mainnet"
  | 10 => Except.ok "opt-mainnet"
  | 8453 => Except.ok "base-mainnet"
  | _ => Except.error "Unsupported chain ID for Alchemy"

/-- The network calls `sendUserOperation` can make. -/
inductive NetCall where
  | paymasterFetch : NetCall
  | bundlerFetch : NetCall
deriving DecidableEq

/-- The network calls `AlchemyBundlerProvider.sendUserOperation`
(alchemy.ts lines 51-133) performs: none before `getChainPrefix` and
`validateUserOperation` have both passed; then a paymaster fetch exactly
when a paymaster url is configured, and the bundler call itself. -/
def sendUserOperationCalls (op : ServerUserOp) (chainId : Nat)
    (paymasterUrl : Option String) : List NetCall :=
  match getChainPrefix chainId with
  | Except.error _ => []
  | Except.ok _ =>
      match validateUserOperation op with
      | Except.error _ => []
      | Except.ok _ =>
          (match paymasterUrl with
           | some _ => [NetCall.paymasterFetch]
           | none => []) ++ [NetCall.bundlerFetch]

/-- The signed client-side UserOperation handed to `serializeUserOp`
(web3.ts line 302): eleven fields of runtime JS values. -/
structure ClientOp where
  sender : JSValue
  nonce : JSValue
  initCode : JSValue
  callData : JSValue
  callGasLimit : JSValue
  verificationGasLimit : JSValue
  preVerificationGas : JSValue
  maxFeePerGas : JSValue
  maxPriorityFeePerGas : JSValue
  paymasterAndData : JSValue
  signature : JSValue
deriving DecidableEq

/-- The serialized wire form of a UserOperation: eleven hex strings. -/
structure WireOp where
  sender : String
  nonce : String
  initCode : String
  callData : String
  callGasLimit : String
  verificationGasLimit : String
  preVerificationGas : String
  maxFeePerGas : String
  maxPriorityFeePerGas : String
  paymasterAndData : String
  signature : String
deriving DecidableEq

/-- `serializeUserOp` (web3.ts lines 82-130): the canonicalizer applied
to every field. -/
def serializeUserOp (op : ClientOp) : WireOp :=
  ⟨formatHex op.sender, formatHex op.nonce, formatHex op.initCode,
   formatHex op.callData, formatHex op.callGasLimit,
   formatHex op.verificationGasLimit, formatHex op.preVerificationGas,
   formatHex op.maxFeePerGas, formatHex op.maxPriorityFeePerGas,
   formatHex op.paymasterAndData, formatHex op.signature⟩

/-- The paymaster clearing step of POST /api/send-user-operation
(routes.ts lines 355-359): unless the caller asked for a paymaster AND
the bundler configuration has a paymaster url, paymasterAndData is
overwritten with "0x". -/
def routePaymasterStep (op : WireOp) (usePaymaster : Bool)
    (configPaymasterUrl : Option String) : WireOp :=
  if !usePaymaster || configPaymasterUrl = none
  then { op with paymasterAndData := "0x" } else op

/-- A WireOp as the Alchemy provider sees it: every field present. -/
def wireToServerOp (op : WireOp) : ServerUserOp :=
  ⟨some op.sender, some op.nonce, some op.initCode, some op.callData,
   some op.callGasLimit, some op.verificationGasLimit,
   some op.preVerificationGas, some op.maxFeePerGas,
   some op.maxPriorityFeePerGas, some op.paymasterAndData, some op.signature⟩

/-- The paymaster block of `AlchemyBundlerProvider.sendUserOperation`
(alchemy.ts lines 62-95): with a provider paymaster url, a failed fetch
or a response without paymasterAndData throws, and a good response is
written INTO the operation's paymasterAndData; without one the operation
passes through. The response is none for a failed fetch, some none for a
response missing paymasterAndData. -/
def alchemyPaymasterStep (op : WireOp) (providerPaymasterUrl : Option String)
    (paymasterResp : Option (Option String)) : Except String WireOp :=
  match providerPaymasterUrl with
  | none => Except.ok op
  | some _ =>
      match paymasterResp with
      | none => Except.error "Paymaster request failed"
      | some none => Except.error "Invalid paymaster response: missing paymasterAndData"
      | some (some pd) => Except.ok { op with paymasterAndData := pd }

/-- The pipeline a signed operation passes between signing and the relay
call (web3.ts lines 297-315, routes.ts lines 333-373, alchemy.ts lines
51-112): serialization, the route's paymaster clearing, the provider's
validation and paymaster block. Its value is the operation the JSON-RPC
eth_sendUserOperation params carry. -/
def pipelineSubmit (signedOp : ClientOp) (usePaymaster : Bool)
    (configPaymasterUrl providerPaymasterUrl : Option String)
    (paymasterResp : Option (Option String)) : Except String WireOp :=
  match validateUserOperation (wireToServerOp
      (routePaymasterStep (serializeUserOp signedOp) usePaymaster configPaymasterUrl)) with
  | Except.error e => Except.error e
  | Except.ok _ =>
      alchemyPaymasterStep
        (routePaymasterStep (serializeUserOp signedOp) usePaymaster configPaymasterUrl)
        providerPaymasterUrl paymasterResp

/-- A signing-engine field value as the canonicalizer receives it. -/
def embedJS : BigIntOrString → JSValue
  | BigIntOrString.big n => JSValue.vBigInt n
  | BigIntOrString.str s => JSValue.vStr s

/-- A field already in canonical shape: a bigint, or a string carrying
its 0x mark. On these the signing engine's local formatting and the
canonicalizer agree; on bare decimal strings they do not. -/
def canonicalShape : BigIntOrString → Bool
  | BigIntOrString.big _ => true
  | BigIntOrString.str s => jsStartsWith0x s

/-- The packed fields as claim C2 words them: the byte concatenation of
the CANONICALIZED fields, in the fixed order, each field's canonical hex
decoded to bytes. -/
def claimPackedFields (op : UserOp) : List Nat :=
  List.flatten ((opFieldList op).map (fun f => toBytes (formatHex (embedJS f))))

/-- The digest preimage as claim C2 words it: entryPointBytes ||
chainIdBytes || packedFields, with the chain id canonicalized as hex. -/
def claimDigestMessage (op : UserOp) (chainId : Nat) (entryPoint : String) : List Nat :=
  toBytes entryPoint ++ toBytes (formatHex (JSValue.vBigInt chainId)) ++ claimPackedFields op

/-! Lemmas. -/

@[simp]
theorem jsStartsWith0x_0x_append (t : String) : jsStartsWith0x ("0x" ++ t) = true := rfl

theorem formatHex_starts0x (v : JSValue) : jsStartsWith0x (formatHex v) = true := by
  cases v with
  | vNull => rfl
  | vBigInt n => rfl
  | vNumber n => rfl
  | vStr s =>
      by_cases h1 : jsStartsWith0x s
      · simp [formatHex, h1]
      · by_cases h2 : (!s.data.isEmpty && s.data.all isDecDigitB) = true
        · simp [formatHex, h1, h2]
        · simp [formatHex, h1, h2]

/-! Claim theorems. -/

/-- C6: the canonicalizer is idempotent — feeding any canonicalizer
output back in as a string reproduces it, since every output carries a
leading 0x mark and 0x-strings pass through unchanged. Proved for every
runtime input shape, which covers the claim's valid inputs (big integer,
decimal string, 0x hex string, null/absent). -/
theorem canonicalize_idempotent (v : JSValue) :
    formatHex (JSValue.vStr (formatHex v)) = formatHex v := by
  have h := formatHex_starts0x v
  generalize formatHex v = w at h ⊢
  simp [formatHex, h]

/-- C4 counter: a string of characters that are neither 0x-hex nor
decimal does not make canonicalization fail — `formatHex` is total and
returns "0x" ++ the string unchanged ("zz" becomes "0xzz"); no
MalformedNumericInput failure exists anywhere in the code. -/
theorem canonicalizer_no_failure_cex : formatHex (JSValue.vStr "zz") = "0xzz" := by decide

/-- C4 amended: the canonicalizer never fails. A string without a 0x mark
whose characters are not all decimal digits is returned with a 0x mark
put in front of it, whatever characters it holds; a string with a 0x mark
passes through unchanged even when its digits are not hex. -/
theorem canonicalizer_malformed_passthrough (s : String) :
    (jsStartsWith0x s = false → s.data.all isDecDigitB = false →
      formatHex (JSValue.vStr s) = "0x" ++ s) ∧
    (jsStartsWith0x s = true → formatHex (JSValue.vStr s) = s) := by
  constructor
  · intro hs hd
    simp [formatHex, hs, hd]
  · intro hs
    simp [formatHex, hs]

/-- C9: `verifyDeployment` reports false, rather than failing, on every
internal error: an unsupported chain id gives false, a failed RPC
bytecode read gives false, and a true answer can only arise from a
successful read of bytecode other than "0x" on a supported chain. -/
theorem verifyDeployment_error_to_false (address : String) (chainId : Nat)
    (rpc : Except String (Option String)) :
    (chainId ∉ SUPPORTED_CHAIN_IDS → verifyDeployment address chainId rpc = false) ∧
    (∀ e, rpc = Except.error e → verifyDeployment address chainId rpc = false) ∧
    (verifyDeployment address chainId rpc = true →
      chainId ∈ SUPPORTED_CHAIN_IDS ∧ ∃ code, rpc = Except.ok (some code) ∧ code ≠ "0x") := by
  refine ⟨fun h => by simp [verifyDeployment, h], fun e he => by subst he; simp [verifyDeployment], ?_⟩
  intro h
  by_cases hm : chainId ∈ SUPPORTED_CHAIN_IDS
  · refine ⟨hm, ?_⟩
    cases rpc with
    | error e => simp [verifyDeployment, hm] at h
    | ok code =>
        cases code with
        | none => simp [verifyDeployment, hm] at h
        | some c =>
            refine ⟨c, rfl, ?_⟩
            simp [verifyDeployment, hm] at h
            exact h
  · simp [verifyDeployment, hm] at h

theorem hexDigitChar_ascii (n : Nat) : (hexDigitChar n).toNat < 128 := by
  unfold hexDigitChar
  split <;> decide

theorem utf8Bytes_append (a b : String) :
    utf8Bytes (a ++ b) = utf8Bytes a ++ utf8Bytes b := by
  simp [utf8Bytes, String.data_append]

theorem utf8_len_ascii (l : List Char) (h : ∀ c ∈ l, c.toNat < 128) :
    (l.flatMap (fun c => utf8Char c.toNat)).length = l.length := by
  induction l with
  | nil => rfl
  | cons c cs ih =>
      have hc : c.toNat < 128 := h c (by simp)
      have h1 : (utf8Char c.toNat).length = 1 := by simp [utf8Char, hc]
      rw [List.flatMap_cons, List.length_append, List.length_cons,
        ih (fun x hx => h x (List.mem_cons_of_mem c hx)), h1]
      omega

theorem bindHex_ascii (b : List Nat) : ∀ c ∈ b.flatMap byteHexChars, c.toNat < 128 := by
  intro c hc
  simp only [List.mem_flatMap, byteHexChars, List.mem_cons, List.not_mem_nil, or_false] at hc
  rcases hc with ⟨a, _, rfl | rfl⟩ <;> exact hexDigitChar_ascii _

theorem bindHex_len (b : List Nat) : (b.flatMap byteHexChars).length = 2 * b.length := by
  induction b with
  | nil => rfl
  | cons x xs ih =>
      rw [List.flatMap_cons, List.length_append, ih]
      simp [byteHexChars]
      omega

/-- C1 bug record: the signature is NOT over the raw Keccak-256 digest
bytes. `signUserOp` hands the digest's 0x-less hex text to viem's
personal-message signing, so the ECDSA payload is a second Keccak-256
hash, taken over the EIP-191 envelope of the digest's hex characters —
and that envelope is never the digest itself. -/
theorem signUserOp_applies_eip191 (keccak : List Nat → List Nat)
    (ecdsa : Nat → List Nat → List Nat) (op : UserOp) (chainId : Nat)
    (entryPoint : String) (key : Nat) :
    signUserOp keccak ecdsa op chainId entryPoint key
        = ecdsa key (keccak (hashMessagePreimage
            (jsSliceTwo (userOpHashHex keccak op chainId entryPoint)))) ∧
    hashMessagePreimage (jsSliceTwo (userOpHashHex keccak op chainId entryPoint))
        ≠ userOpDigestBytes keccak op chainId entryPoint := by
  refine ⟨rfl, ?_⟩
  intro hcontra
  have h1 : utf8Bytes (jsSliceTwo (userOpHashHex keccak op chainId entryPoint))
      = ((userOpDigestBytes keccak op chainId entryPoint).flatMap byteHexChars).flatMap
          (fun c => utf8Char c.toNat) := rfl
  have h2 : (((userOpDigestBytes keccak op chainId entryPoint).flatMap byteHexChars).flatMap
      (fun c => utf8Char c.toNat)).length
      = ((userOpDigestBytes keccak op chainId entryPoint).flatMap byteHexChars).length :=
    utf8_len_ascii _ (bindHex_ascii _)
  have h3 := bindHex_len (userOpDigestBytes keccak op chainId entryPoint)
  have hlen := congrArg List.length hcontra
  simp only [hashMessagePreimage] at hlen
  rw [List.length_append, utf8Bytes_append, List.length_append, h1, h2, h3] at hlen
  have h26 : (utf8Bytes "\x19Ethereum Signed Message:\n").length = 26 := by decide
  rw [h26] at hlen
  omega

theorem hexDigitChar_ne_x (k : Nat) : hexDigitChar k ≠ 'x' := by
  unfold hexDigitChar
  split <;> decide

theorem natToHexCore_chars (fuel : Nat) : ∀ n c, c ∈ natToHexCore fuel n → ∃ k, c = hexDigitChar k := by
  induction fuel with
  | zero => intro n c hc; simp [natToHexCore] at hc
  | succ fuel ih =>
      intro n c hc
      simp only [natToHexCore] at hc
      by_cases h : n = 0
      · simp [h] at hc
      · rw [if_neg h] at hc
        rcases List.mem_append.mp hc with h1 | h1
        · exact ih _ c h1
        · simp at h1
          exact ⟨n % 16, h1⟩

theorem jsStartsWith0x_no_x (l : List Char) (h : 'x' ∉ l) :
    jsStartsWith0x (String.mk l) = false := by
  unfold jsStartsWith0x
  split
  · rename_i tail heq
    exact absurd (by rw [show l = '0' :: 'x' :: tail from heq]; simp) h
  · rfl

theorem jsStartsWith0x_natToHex (n : Nat) : jsStartsWith0x (natToHex n) = false := by
  unfold natToHex
  split
  · rfl
  · refine jsStartsWith0x_no_x _ (fun hx => ?_)
    rcases natToHexCore_chars n n 'x' hx with ⟨k, hk⟩
    exact hexDigitChar_ne_x k hk.symm

theorem formatHexSign_canonical (f : BigIntOrString) (h : canonicalShape f = true) :
    formatHexSign f = formatHex (embedJS f) := by
  cases f with
  | big n => simp [formatHexSign, embedJS, formatHex, jsStartsWith0x_natToHex n]
  | str s =>
      have hs : jsStartsWith0x s = true := h
      simp [formatHexSign, embedJS, formatHex, hs]

theorem pack_eq_claim (op : UserOp) (h : ∀ f ∈ opFieldList op, canonicalShape f = true) :
    packUserOp op = claimPackedFields op := by
  unfold packUserOp claimPackedFields
  congr 1
  refine List.map_congr_left (fun f hf => ?_)
  rw [formatHexSign_canonical f (h f hf)]

theorem hexPairs_length : ∀ l : List Char, (hexPairs l).length = (l.length + 1) / 2
  | [] => by simp [hexPairs]
  | [c] => by simp [hexPairs]
  | c1 :: c2 :: rest => by
      simp [hexPairs, hexPairs_length rest]
      omega

theorem hexToBytes_length (s : String) :
    (hexToBytes s).length = ((s.data.drop 2).length + 1) / 2 := by
  show (hexPairs (if (s.data.drop 2).length % 2 = 1 then '0' :: s.data.drop 2
    else s.data.drop 2)).length = ((s.data.drop 2).length + 1) / 2
  split
  · rename_i hp
    rw [hexPairs_length]
    simp only [List.length_cons]
    omega
  · rw [hexPairs_length]

theorem toBytes_natural_length (s : String) (h : isHexStrict s = true) :
    (toBytes s).length = (s.data.length - 2 + 1) / 2 := by
  unfold toBytes
  rw [if_pos h, hexToBytes_length, List.length_drop]

/-- C2 amended: the digest is Keccak-256 of entryPointBytes ||
chainIdBytes || packedFields in the claimed fixed order, each field at
its natural byte length with no ABI padding — PROVIDED every field is a
bigint or already carries its 0x mark. The signing engine's local
formatting skips the canonicalizer's decimal-to-hex conversion, so only
fields in canonical shape are packed from their canonical hex. -/
theorem userOpDigest_structure (keccak : List Nat → List Nat) (op : UserOp)
    (chainId : Nat) (entryPoint : String) :
    ((∀ f ∈ opFieldList op, canonicalShape f = true) →
      userOpDigestBytes keccak op chainId entryPoint
        = keccak (claimDigestMessage op chainId entryPoint)) ∧
    (∀ f ∈ opFieldList op, isHexStrict (formatHexSign f) = true →
      (toBytes (formatHexSign f)).length = ((formatHexSign f).data.length - 2 + 1) / 2) := by
  constructor
  · intro h
    unfold userOpDigestBytes signUserOpMessage claimDigestMessage
    rw [pack_eq_claim op h, formatHexSign_canonical (BigIntOrString.big chainId) rfl]
    simp [embedJS]
  · intro f _ hf
    exact toBytes_natural_length _ hf

/-- C2 counter: with the identity in place of the hash parameter and a
bare decimal nonce "12" — the shape the client flow actually produces —
the digest preimage the code signs packs the byte 0x12, while the
claimed preimage over canonicalized fields packs canonical hex "0xc",
byte 0x0c: the claimed digest law fails on decimal-string fields. -/
theorem userOpDigest_claim_cex :
    userOpDigestBytes (fun l => l)
        ⟨BigIntOrString.str "0xaaaaaaaaaaaaaaaaaaaaaaaaaaaaaaaaaaaaaaaa",
         BigIntOrString.str "12", BigIntOrString.str "0x", BigIntOrString.str "0x",
         BigIntOrString.str "0x1", BigIntOrString.str "0x1", BigIntOrString.str "0x1",
         BigIntOrString.str "0x1", BigIntOrString.str "0x1", BigIntOrString.str "0x"⟩
        1 "0x5FF137D4b0FDCD49DcA30c7CF57E578a026d2789"
      ≠ claimDigestMessage
        ⟨BigIntOrString.str "0xaaaaaaaaaaaaaaaaaaaaaaaaaaaaaaaaaaaaaaaa",
         BigIntOrString.str "12", BigIntOrString.str "0x", BigIntOrString.str "0x",
         BigIntOrString.str "0x1", BigIntOrString.str "0x1", BigIntOrString.str "0x1",
         BigIntOrString.str "0x1", BigIntOrString.str "0x1", BigIntOrString.str "0x"⟩
        1 "0x5FF137D4b0FDCD49DcA30c7CF57E578a026d2789" := by decide

theorem factory_lookup_const (chainId : Nat) (f : String)
    (h : SIMPLE_ACCOUNT_FACTORY chainId = some f) : f = factoryAddressConst := by
  unfold SIMPLE_ACCOUNT_FACTORY at h
  split at h
  · injection h with h1
    exact h1.symm
  · simp at h

theorem generateInitCode_ok (owner : String) (chainId : Nat) (ic : String)
    (h : generateInitCode owner chainId = Except.ok ic) :
    ic = toLowerStr factoryAddressConst ++ jsSliceTwo (encodeCreateAccount owner 0) ∧
    SIMPLE_ACCOUNT_FACTORY chainId = some factoryAddressConst := by
  unfold generateInitCode at h
  cases hl : SIMPLE_ACCOUNT_FACTORY chainId with
  | none => rw [hl] at h; simp at h
  | some f =>
      have hf := factory_lookup_const chainId f hl
      subst hf
      rw [hl] at h
      have hstart : jsStartsWith0x (toLowerStr factoryAddressConst) = true := by decide
      simp only [hstart, if_true] at h
      injection h with h1
      exact ⟨h1.symm, rfl⟩

theorem generateInitCode_ne_empty (owner : String) (chainId : Nat) (ic : String)
    (h : generateInitCode owner chainId = Except.ok ic) : ic ≠ "0x" := by
  rcases generateInitCode_ok owner chainId ic h with ⟨hic, -⟩
  intro hbad
  subst hic
  have hlen := congrArg (fun s => s.data.length) hbad
  simp only [String.data_append, List.length_append, List.length_cons,
    List.length_nil] at hlen
  have h42 : (toLowerStr factoryAddressConst).data.length = 42 := by decide
  rw [h42] at hlen
  omega

/-- C5: the initCode emptiness invariant. A deployed wallet gets initCode
"0x"; an undeployed wallet gets a non-empty initCode whose first 20 bytes
(42 hex characters with the 0x mark) are exactly the lowercased factory
address configured for the chain; and `generateInitCode` itself never
returns "0x" — only the assembling caller chooses the empty value. -/
theorem initCode_invariant (owner : String) (chainId : Nat) :
    (assembleInitCode true owner chainId = Except.ok "0x") ∧
    (∀ ic, assembleInitCode false owner chainId = Except.ok ic →
      ic ≠ "0x" ∧ SIMPLE_ACCOUNT_FACTORY chainId = some factoryAddressConst ∧
      ic.data.take 42 = (toLowerStr factoryAddressConst).data) ∧
    (∀ ic, generateInitCode owner chainId = Except.ok ic → ic ≠ "0x") := by
  refine ⟨rfl, ?_, fun ic h => generateInitCode_ne_empty owner chainId ic h⟩
  intro ic h
  have h2 : generateInitCode owner chainId = Except.ok ic := h
  rcases generateInitCode_ok owner chainId ic h2 with ⟨hic, hfac⟩
  refine ⟨generateInitCode_ne_empty owner chainId ic h2, hfac, ?_⟩
  subst hic
  rw [String.data_append]
  have h42 : 42 = (toLowerStr factoryAddressConst).data.length := by decide
  rw [h42]
  exact List.take_left _ _

/-- C7 bug record: the retry loop never re-runs the submission. The
deployment flow hands `trackDeployment` one already-created promise; a
rejected submission is observed again by every one of the 3 attempts, two
5-second backoffs are slept, and the failure surfaced after the third
attempt is that same single error — the build-and-submit sequence itself
runs once and can never succeed on retry. A resolved promise returns on
the first attempt. -/
theorem trackDeployment_reawaits_same_promise (e : String) (a : Nat) :
    trackDeployment (JSPromise.rejected e : JSPromise Nat) 3 5000
        = ⟨Except.error e, "failed", 3, [5000, 5000]⟩ ∧
    trackDeployment (JSPromise.resolved a) 3 5000
        = ⟨Except.ok (some a), "deployed", 1, []⟩ := by
  exact ⟨rfl, rfl⟩

theorem awaitDeploymentLoop_all_false (oracle : Nat → Bool) :
    ∀ fuel attempts, (∀ n, attempts ≤ n → n < attempts + fuel → oracle n = false) →
    awaitDeploymentLoop oracle attempts fuel
      = (Except.error "Deployment verification timeout", List.replicate fuel 2000) := by
  intro fuel
  induction fuel with
  | zero => intro attempts _; rfl
  | succ fuel ih =>
      intro attempts h
      have h0 : oracle attempts = false := h attempts le_rfl (by omega)
      show (if oracle attempts then _ else _) = _
      rw [h0]
      simp only [Bool.false_eq_true, if_false]
      rw [ih (attempts + 1) (fun n h1 h2 => h n (by omega) (by omega))]
      simp [List.replicate_succ]

theorem awaitDeploymentLoop_ok (oracle : Nat → Bool) :
    ∀ fuel attempts k waits,
      awaitDeploymentLoop oracle attempts fuel = (Except.ok k, waits) →
      oracle k = true ∧ attempts ≤ k ∧ k < attempts + fuel := by
  intro fuel
  induction fuel with
  | zero =>
      intro attempts k waits h
      simp [awaitDeploymentLoop] at h
  | succ fuel ih =>
      intro attempts k waits h
      by_cases ho : oracle attempts = true
      · simp only [awaitDeploymentLoop, ho, if_true] at h
        have h1 : (Except.ok attempts : Except String Nat) = Except.ok k :=
          congrArg Prod.fst h
        injection h1 with h1
        subst h1
        exact ⟨ho, le_rfl, by omega⟩
      · simp only [awaitDeploymentLoop, ho, if_false, Bool.not_eq_true] at h
        rcases hr : awaitDeploymentLoop oracle (attempts + 1) fuel with ⟨res, ws⟩
        rw [hr] at h
        have h1 : res = Except.ok k := congrArg Prod.fst h
        rcases ih (attempts + 1) k ws (by rw [hr, h1]) with ⟨hk, h2, h3⟩
        exact ⟨hk, by omega, by omega⟩

/-- C8 counter: the code does not poll the receipt with a 10-attempt
budget. With a receipt that appears from the second lookup on, the
claimed 5s-grace-then-10-polls discipline (specConfirmed) confirms the
operation, but `verifyUserOperation` looks the receipt up exactly once
and reports failure. -/
theorem confirmation_polling_cex :
    (verifyUserOperation (some "0xabc") 1
        (fun n => if n = 0 then none else some true)).success = false ∧
    (verifyUserOperation (some "0xabc") 1
        (fun n => if n = 0 then none else some true)).receiptChecks = 1 ∧
    specConfirmed (fun n => if n = 0 then none else some true) = true := by
  exact ⟨rfl, rfl, by decide⟩

/-- C8 amended: the transaction-verification helper sleeps a single
5-second grace period and performs exactly ONE receipt lookup — no
receipt yields failure "Transaction receipt not found", never success,
and success holds exactly when that one receipt reports success. The
10-attempt, 2-second-spaced polling belongs to the deployment flow's
separate confirmation loop, which, when all 10 deployment checks fail,
raises "Deployment verification timeout" — no ConfirmationTimeout kind
exists — and only returns success when some check within the 10-attempt
budget confirmed. -/
theorem confirmation_behavior (txh : String) (chainId : Nat)
    (receiptAt : Nat → Option Bool) (deployOracle : Nat → Bool) :
    (chainId ∈ SUPPORTED_CHAIN_IDS →
      (verifyUserOperation (some txh) chainId receiptAt).graceWaits = [5000] ∧
      (verifyUserOperation (some txh) chainId receiptAt).receiptChecks = 1 ∧
      (receiptAt 0 = none →
        verifyUserOperation (some txh) chainId receiptAt
          = ⟨false, some "Transaction receipt not found", [5000], 1⟩) ∧
      ((verifyUserOperation (some txh) chainId receiptAt).success = true ↔
        receiptAt 0 = some true)) ∧
    ((∀ n, n < 10 → deployOracle n = false) →
      awaitDeployment deployOracle
        = (Except.error "Deployment verification timeout", List.replicate 10 2000)) ∧
    (∀ k waits, awaitDeployment deployOracle = (Except.ok k, waits) →
      deployOracle k = true ∧ k < 10) := by
  refine ⟨?_, ?_, ?_⟩
  · intro hm
    refine ⟨?_, ?_, ?_, ?_⟩
    · unfold verifyUserOperation
      rw [if_pos hm]
      cases receiptAt 0 with
      | none => rfl
      | some b => cases b <;> rfl
    · unfold verifyUserOperation
      rw [if_pos hm]
      cases receiptAt 0 with
      | none => rfl
      | some b => cases b <;> rfl
    · intro h0
      unfold verifyUserOperation
      rw [if_pos hm, h0]
    · unfold verifyUserOperation
      rw [if_pos hm]
      cases h0 : receiptAt 0 with
      | none => simp
      | some b => cases b <;> simp
  · intro hall
    exact awaitDeploymentLoop_all_false deployOracle 10 0 (fun n h1 h2 => hall n (by omega))
  · intro k waits h
    rcases awaitDeploymentLoop_ok deployOracle 10 0 k waits h with ⟨hk, -, h3⟩
    exact ⟨hk, by omega⟩

theorem checkHexFields_ok_iff : ∀ l : List (String × Option String),
    checkHexFields l = Except.ok () ↔ ∀ p ∈ l, isValidHexField p.2 = true := by
  intro l
  induction l with
  | nil => simp [checkHexFields]
  | cons p rest ih =>
      rcases p with ⟨name, v⟩
      by_cases hv : isValidHexField v = true
      · simp only [checkHexFields, hv, if_true, ih, List.mem_cons]
        constructor
        · intro h q hq
          rcases hq with rfl | hq2
          · exact hv
          · exact h q hq2
        · intro h q hq
          exact h q (Or.inr hq)
      · simp only [checkHexFields, hv, if_false, Bool.not_eq_true]
        constructor
        · intro h
          simp at h
        · intro h
          exact absurd (h (name, v) (by simp)) hv

theorem validateUserOperation_ok_iff (op : ServerUserOp) :
    validateUserOperation op = Except.ok () ↔
      isValidSender op.sender = true ∧
      ∀ p ∈ hexFieldEntries op, isValidHexField p.2 = true := by
  unfold validateUserOperation
  by_cases hs : isValidSender op.sender = true
  · rw [if_pos hs, checkHexFields_ok_iff]
    simp [hs]
  · rw [if_neg hs]
    simp [hs]

/-- C10: the Alchemy provider validates before any network call — a
non-empty call trace needs validation to have passed; a sender that is
not 0x plus 40 hex digits makes validation throw the sender error and
leaves the trace empty; any other field that is a non-empty string not
of the form 0x-then-hex-digits (a bare decimal such as "12" included)
fails validation and leaves the trace empty; absent and empty values
pass the field check. -/
theorem alchemy_validates_before_network (op : ServerUserOp) (chainId : Nat)
    (paymasterUrl : Option String) :
    (sendUserOperationCalls op chainId paymasterUrl ≠ [] →
      validateUserOperation op = Except.ok ()) ∧
    (isValidSender op.sender = false →
      validateUserOperation op = Except.error "Invalid sender address format" ∧
      sendUserOperationCalls op chainId paymasterUrl = []) ∧
    ((∃ p ∈ hexFieldEntries op, isValidHexField p.2 = false) →
      validateUserOperation op ≠ Except.ok () ∧
      sendUserOperationCalls op chainId paymasterUrl = []) ∧
    (∀ s : String, s ≠ "" → isHexStrict s = false → isValidHexField (some s) = false) ∧
    isValidHexField none = true ∧ isValidHexField (some "") = true ∧
    isValidHexField (some "12") = false := by
  have hcalls : validateUserOperation op ≠ Except.ok () →
      sendUserOperationCalls op chainId paymasterUrl = [] := by
    intro hv
    unfold sendUserOperationCalls
    cases getChainPrefix chainId with
    | error e => rfl
    | ok p =>
        cases hval : validateUserOperation op with
        | error e => rfl
        | ok u => cases u; exact absurd hval hv
  refine ⟨?_, ?_, ?_, ?_, rfl, by decide, by decide⟩
  · intro h
    cases hval : validateUserOperation op with
    | ok u => cases u; rfl
    | error e =>
        exact absurd (hcalls (by rw [hval]; intro hbad; cases hbad)) h
  · intro hs
    have hv : validateUserOperation op = Except.error "Invalid sender address format" := by
      simp [validateUserOperation, hs]
    exact ⟨hv, hcalls (by rw [hv]; intro hbad; cases hbad)⟩
  · rintro ⟨p, hp, hbad⟩
    have hv : validateUserOperation op ≠ Except.ok () := by
      intro hok
      rcases (validateUserOperation_ok_iff op).mp hok with ⟨-, hall⟩
      rw [hall p hp] at hbad
      cases hbad
    exact ⟨hv, hcalls hv⟩
  · intro s hne hhex
    simp [isValidHexField, hne, hhex]

/-- C3 amended: between signing and the relay call, the nine fields other
than paymasterAndData (and the signature) only undergo canonical
re-encoding — the submitted value of each is the canonicalizer applied to
its signed value. paymasterAndData, however, is forced to "0x" by the
relay route whenever the caller does not ask for a paymaster or none is
configured; it equals the re-encoding of its signed value exactly when
that re-encoding is "0x" — which the client flow, signing
paymasterAndData = "0x" and never sending usePaymaster, always satisfies.
The provider carries no paymaster url in the server wiring, so its
paymaster overwrite branch is idle (providerPaymasterUrl = none here). -/
theorem pipeline_preserves_signed_fields (signedOp : ClientOp) (usePaymaster : Bool)
    (cfgUrl : Option String) (payResp : Option (Option String)) (w : WireOp)
    (h : pipelineSubmit signedOp usePaymaster cfgUrl none payResp = Except.ok w) :
    w.sender = formatHex signedOp.sender ∧
    w.nonce = formatHex signedOp.nonce ∧
    w.initCode = formatHex signedOp.initCode ∧
    w.callData = formatHex signedOp.callData ∧
    w.callGasLimit = formatHex signedOp.callGasLimit ∧
    w.verificationGasLimit = formatHex signedOp.verificationGasLimit ∧
    w.preVerificationGas = formatHex signedOp.preVerificationGas ∧
    w.maxFeePerGas = formatHex signedOp.maxFeePerGas ∧
    w.maxPriorityFeePerGas = formatHex signedOp.maxPriorityFeePerGas ∧
    w.signature = formatHex signedOp.signature ∧
    w.paymasterAndData
      = (if (!usePaymaster || cfgUrl = none) = true then "0x"
         else formatHex signedOp.paymasterAndData) ∧
    (formatHex signedOp.paymasterAndData = "0x" →
      w.paymasterAndData = formatHex signedOp.paymasterAndData) := by
  unfold pipelineSubmit at h
  cases hval : validateUserOperation (wireToServerOp
      (routePaymasterStep (serializeUserOp signedOp) usePaymaster cfgUrl)) with
  | error e => rw [hval] at h; cases h
  | ok u =>
      cases u
      rw [hval] at h
      have hw : w = routePaymasterStep (serializeUserOp signedOp) usePaymaster cfgUrl := by
        unfold alchemyPaymasterStep at h
        injection h with h1
        exact h1.symm
      subst hw
      unfold routePaymasterStep serializeUserOp
      by_cases hc : (!usePaymaster || cfgUrl = none) = true
      · rw [if_pos hc, if_pos hc]
        refine ⟨rfl, rfl, rfl, rfl, rfl, rfl, rfl, rfl, rfl, rfl, rfl, ?_⟩
        intro hp
        exact hp.symm
      · rw [if_neg hc, if_neg hc]
        exact ⟨rfl, rfl, rfl, rfl, rfl, rfl, rfl, rfl, rfl, rfl, rfl, fun _ => rfl⟩

/-- C3 witness: the pipeline applied to a concrete signed operation with
a paymaster requested and configured: every submitted field is the
re-encoding of its signed value. -/
theorem pipeline_preserves_signed_fields_witness :
    (WireOp.mk "0xbbbbbbbbbbbbbbbbbbbbbbbbbbbbbbbbbbbbbbbb" "0x0" "0x" "0x" "0x2"
        "0x2" "0x2" "0x2" "0x2" "0x03" "0x04").sender
      = formatHex (JSValue.vStr "0xbbbbbbbbbbbbbbbbbbbbbbbbbbbbbbbbbbbbbbbb") :=
  (pipeline_preserves_signed_fields
    ⟨JSValue.vStr "0xbbbbbbbbbbbbbbbbbbbbbbbbbbbbbbbbbbbbbbbb", JSValue.vStr "0x0",
     JSValue.vStr "0x", JSValue.vStr "0x", JSValue.vStr "0x2", JSValue.vStr "0x2",
     JSValue.vStr "0x2", JSValue.vStr "0x2", JSValue.vStr "0x2",
     JSValue.vStr "0x03", JSValue.vStr "0x04"⟩ true (some "pm") none
    (WireOp.mk "0xbbbbbbbbbbbbbbbbbbbbbbbbbbbbbbbbbbbbbbbb" "0x0" "0x" "0x" "0x2"
        "0x2" "0x2" "0x2" "0x2" "0x03" "0x04") (by rfl)).1

/-- C3 counter: a signed operation whose paymasterAndData is "0x01",
submitted the way the client submits (no usePaymaster flag, no paymaster
configured), reaches the relay with paymasterAndData "0x" — a pipeline
step between signing and the relay call changed a signed field. -/
theorem pipeline_paymaster_overwrite_cex :
    pipelineSubmit
      ⟨JSValue.vStr "0xaaaaaaaaaaaaaaaaaaaaaaaaaaaaaaaaaaaaaaaa", JSValue.vStr "0x0",
       JSValue.vStr "0x", JSValue.vStr "0x", JSValue.vStr "0x1", JSValue.vStr "0x1",
       JSValue.vStr "0x1", JSValue.vStr "0x1", JSValue.vStr "0x1",
       JSValue.vStr "0x01", JSValue.vStr "0x02"⟩ false none none none
      = Except.ok
      (WireOp.mk "0xaaaaaaaaaaaaaaaaaaaaaaaaaaaaaaaaaaaaaaaa" "0x0" "0x" "0x" "0x1"
        "0x1" "0x1" "0x1" "0x1" "0x" "0x02") ∧
    formatHex (JSValue.vStr "0x01") = "0x01" ∧ ("0x" : String) ≠ "0x01" := by
  exact ⟨by rfl, by rfl, by decide⟩
